import Mathlib

/-!
Verification of the FACIS deterministic energy-system simulation service
(`simulation-service`) against its natural-language specification.

The Python source is shallowly embedded over exact rational arithmetic:

* a `datetime` value is represented by its POSIX timestamp in seconds, as a
  rational number (`ℚ`); timezone handling is trivial because every code path
  under scrutiny normalises to UTC before arithmetic;
* Python float arithmetic is modelled by exact arithmetic on `ℚ`;
* transcendental library functions (`math.sin`, `math.cos`, `math.asin`,
  `math.acos`, `x ** y`) are kept abstract: the definitions that use them take
  them as explicit function parameters, so every theorem quantifies over their
  interpretation;
* `numpy` random draws are modelled by streams of already-realised draw
  values: a per-timestamp generator becomes a `List ℚ` consumed front to back,
  and the family of per-timestamp generators becomes a function from the
  entity key used for seed derivation to such a list.  The SHA-256 seed
  derivation itself is modelled at the level of its input string
  (`timestampSeedInput` below), which the source builds before hashing.
-/

namespace Facis

/-! ## Python integer semantics helpers -/

/-- Python `int(x)` applied to a (real-valued) number truncates toward zero. -/
def pyTrunc (q : ℚ) : ℤ :=
  if q < 0 then ⌈q⌉ else ⌊q⌋

/-- Python `a // b` (floor division) for integers; `Int.fdiv` has the same
rounding-toward-negative-infinity semantics. -/
def pyFloorDiv (a b : ℤ) : ℤ :=
  Int.fdiv a b

/-- Python `min(a, b)` on numbers (returns the first argument on ties,
which is indistinguishable on values). -/
def pymin (a b : ℚ) : ℚ :=
  if a ≤ b then a else b

/-- Python `max(a, b)` on numbers. -/
def pymax (a b : ℚ) : ℚ :=
  if a ≤ b then b else a

/-! ## Proleptic Gregorian calendar (semantics of `datetime.date` /
`datetime.year` / `datetime(year, 1, 1)`)

The civil-calendar conversions below are the standard era-based algorithms;
they give, for an epoch day count (days since 1970-01-01), the calendar date,
and conversely.  They embed the parts of Python's `datetime` library that the
source relies on. -/

/-- Civil date `(year, month, day)` of an epoch day count (1970-01-01 = 0),
proleptic Gregorian calendar. -/
def civilFromDays (z0 : ℤ) : ℤ × ℤ × ℤ :=
  let z := z0 + 719468
  let era := Int.fdiv z 146097
  let doe := z - era * 146097
  let yoe := Int.fdiv (doe - Int.fdiv doe 1460 + Int.fdiv doe 36524 - Int.fdiv doe 146096) 365
  let y := yoe + era * 400
  let doy := doe - (365 * yoe + Int.fdiv yoe 4 - Int.fdiv yoe 100)
  let mp := Int.fdiv (5 * doy + 2) 153
  let d := doy - Int.fdiv (153 * mp + 2) 5 + 1
  let m := mp + (if mp < 10 then 3 else -9)
  (y + (if m ≤ 2 then 1 else 0), m, d)

/-- Epoch day count (1970-01-01 = 0) of a civil date, proleptic Gregorian. -/
def daysFromCivil (y m d : ℤ) : ℤ :=
  let y1 := y - (if m ≤ 2 then 1 else 0)
  let era := Int.fdiv y1 400
  let yoe := y1 - era * 400
  let doy := Int.fdiv (153 * (m + (if 2 < m then -3 else 9)) + 2) 5 + d - 1
  let doe := yoe * 365 + Int.fdiv yoe 4 - Int.fdiv yoe 100 + doy
  era * 146097 + doe - 719468

/-- Epoch day containing a timestamp (seconds since the epoch, UTC):
`datetime.date()` of the corresponding datetime. -/
def epochDay (t : ℚ) : ℤ :=
  ⌊t / 86400⌋

/-- `timestamp.year` of the UTC datetime at `t` seconds since the epoch. -/
def yearOf (t : ℚ) : ℤ :=
  (civilFromDays (epochDay t)).1

/-- Second-of-day (0 ≤ _ < 86400) of an integral timestamp. -/
def secondOfDay (t : ℤ) : ℤ :=
  t - 86400 * Int.fdiv t 86400

/-- `timestamp.hour` of the UTC datetime at integral second `t`. -/
def hourOf (t : ℤ) : ℤ :=
  Int.fdiv (secondOfDay t) 3600

/-- `timestamp.minute` of the UTC datetime at integral second `t`. -/
def minuteOf (t : ℤ) : ℤ :=
  Int.fdiv (secondOfDay t - 3600 * hourOf t) 60

/-- `timestamp.second` of the UTC datetime at integral second `t`. -/
def secondOf (t : ℤ) : ℤ :=
  secondOfDay t - 3600 * hourOf t - 60 * minuteOf t

/-- `timestamp.timetuple().tm_yday`: 1-based day of year. -/
def dayOfYear (t : ℤ) : ℤ :=
  Int.fdiv t 86400 - daysFromCivil (yearOf (t : ℚ)) 1 1 + 1

/-- Decimal hour `timestamp.hour + timestamp.minute / 60.0` used by the
weather submodels. -/
def hourFrac (t : ℤ) : ℚ :=
  (hourOf t : ℚ) + (minuteOf t : ℚ) / 60

/-! ## `src/core/time_series.py`: intervals and timestamp alignment -/

/-- `IntervalMinutes`: the two supported generation intervals. -/
inductive IntervalMinutes where
  | fifteenMinutes
  | oneHour
deriving DecidableEq

/-- `IntervalMinutes.value`: the interval length in minutes. -/
def IntervalMinutes.minutes : IntervalMinutes → ℤ
  | .fifteenMinutes => 15
  | .oneHour => 60

/-- Interval length in seconds (`interval_seconds = self._interval.value * 60`). -/
def IntervalMinutes.seconds (iv : IntervalMinutes) : ℤ :=
  iv.minutes * 60

/-- `BaseTimeSeriesGenerator.align_timestamp`: take the integral POSIX
timestamp with `int(...)` (truncation toward zero), floor-divide by the
interval length in seconds and scale back.  The result is the aligned
timestamp in epoch seconds. -/
def alignTimestamp (iv : IntervalMinutes) (t : ℚ) : ℤ :=
  pyFloorDiv (pyTrunc t) iv.seconds * iv.seconds

/-- `BaseTimeSeriesGenerator.generate_at`: align the timestamp, then call the
subclass `generate_value` on the aligned timestamp; the returned point pairs
the aligned timestamp with the value.  The subclass hook is a parameter. -/
def generateAt {α : Type} (iv : IntervalMinutes) (generateValue : ℤ → α) (t : ℚ) : ℤ × α :=
  let aligned := alignTimestamp iv t
  (aligned, generateValue aligned)

/-! ## `src/simulators/energy_meter/simulator.py`: point-mode cumulative
energy -/

/-- The meter configuration fields consumed by
`EnergyMeterSimulator._calculate_cumulative_energy`. -/
structure MeterConfig where
  basePowerKw : ℚ
  peakPowerKw : ℚ
  initialEnergyKwh : ℚ
deriving DecidableEq

/-- `EnergyMeterSimulator._calculate_cumulative_energy`: the point-query
cumulative energy.  The reference instant is midnight UTC on January 1 of the
year containing `t`; at or before the reference the initial energy is
returned, afterwards the constant-average-power closed form
(`avg_load_factor = 0.53`) integrates from the reference.  (The
`current_power_kw` argument of the Python method is unused by its body and is
omitted.) -/
def calculateCumulativeEnergy (cfg : MeterConfig) (t : ℚ) : ℚ :=
  let referenceStart : ℚ := ((daysFromCivil (yearOf t) 1 1 * 86400 : ℤ) : ℚ)
  if t ≤ referenceStart then
    cfg.initialEnergyKwh
  else
    let totalHours := (t - referenceStart) / 3600
    let avgLoadFactor : ℚ := 53 / 100
    let avgPowerKw := cfg.basePowerKw + (cfg.peakPowerKw - cfg.basePowerKw) * avgLoadFactor
    cfg.initialEnergyKwh + avgPowerKw * totalHours

/-! ## `src/simulators/pv_generation/simulator.py` -/

/-- `PVConfig` (`src/models/pv.py`): the configuration fields the PV
simulator consumes.  The pydantic model constrains
`nominal_capacity_kwp ≥ 0`, `0 ≤ system_losses_percent ≤ 50`,
`temperature_coefficient_pct_per_c ≤ 0`, `20 ≤ noct_c ≤ 60`; theorems take
the constraints they need as hypotheses. -/
structure PVConfig where
  nominalCapacityKwp : ℚ
  systemLossesPercent : ℚ
  temperatureCoefficientPctPerC : ℚ
  referenceTemperatureC : ℚ
  noctC : ℚ
deriving DecidableEq

/-- The default `PVConfig` field values of `src/models/pv.py`. -/
def PVConfig.default : PVConfig :=
  { nominalCapacityKwp := 10
    systemLossesPercent := 15
    temperatureCoefficientPctPerC := -(4/10)
    referenceTemperatureC := 25
    noctC := 45 }

/-- `PVGenerationSimulator.calculate_module_temperature`: NOCT model,
`T_mod = T_amb + (NOCT - 20) * (G / 800)` when the irradiance is positive. -/
def calculateModuleTemperature (cfg : PVConfig) (ambientTempC irradianceWM2 : ℚ) : ℚ :=
  if irradianceWM2 ≤ 0 then ambientTempC
  else ambientTempC + (cfg.noctC - 20) * (irradianceWM2 / 800)

/-- `PVGenerationSimulator.calculate_temperature_derating`:
`1 + (γ/100) * (T_mod - T_ref)` clamped to `[0, 1.2]`. -/
def calculateTemperatureDerating (cfg : PVConfig) (moduleTempC : ℚ) : ℚ :=
  let derating := 1 + (cfg.temperatureCoefficientPctPerC / 100) * (moduleTempC - cfg.referenceTemperatureC)
  pymax 0 (pymin (12/10) derating)

/-- `PVGenerationSimulator.calculate_power_output`: zero when the irradiance
is non-positive, otherwise the irradiance-proportional output with
temperature derating and system losses, capped at the nominal capacity. -/
def calculatePowerOutput (cfg : PVConfig) (irradianceWM2 moduleTempC : ℚ) : ℚ :=
  if irradianceWM2 ≤ 0 then 0
  else
    let irradianceFactor := irradianceWM2 / 1000
    let tempFactor := calculateTemperatureDerating cfg moduleTempC
    let lossFactor := 1 - cfg.systemLossesPercent / 100
    let powerKw := cfg.nominalCapacityKwp * irradianceFactor * tempFactor * lossFactor
    pymin powerKw cfg.nominalCapacityKwp

/-- `PVGenerationSimulator.calculate_efficiency`: output as a percentage of
the loss-free, derating-free output at the same irradiance, clamped to 100. -/
def calculateEfficiency (cfg : PVConfig) (powerOutputKw irradianceWM2 : ℚ) : ℚ :=
  if irradianceWM2 ≤ 0 ∨ powerOutputKw ≤ 0 then 0
  else
    let theoreticalMax := cfg.nominalCapacityKwp * (irradianceWM2 / 1000)
    if theoreticalMax ≤ 0 then 0
    else pymin 100 ((powerOutputKw / theoreticalMax) * 100)

/-- The PV simulator's per-instance mutable daily-energy accumulator:
`_last_energy_date` and `_daily_energy_kwh`, initialised to `None` / `0.0`
in `PVGenerationSimulator.__init__`. -/
structure PVEnergyState where
  lastEnergyDate : Option ℤ
  dailyEnergyKwh : ℚ
deriving DecidableEq

/-- The freshly-constructed accumulator state. -/
def PVEnergyState.initial : PVEnergyState :=
  { lastEnergyDate := none, dailyEnergyKwh := 0 }

/-- `PVGenerationSimulator._update_daily_energy`: reset the accumulator when
the UTC date differs from the last seen one, add `P × interval / 60`, and
return the accumulated value together with the mutated state. -/
def updateDailyEnergy (st : PVEnergyState) (currentDate : ℤ) (powerKw : ℚ)
    (intervalMinutes : ℤ) : ℚ × PVEnergyState :=
  let st1 :=
    if st.lastEnergyDate = some currentDate then st
    else { lastEnergyDate := some currentDate, dailyEnergyKwh := 0 }
  let energyKwh := powerKw * ((intervalMinutes : ℚ) / 60)
  let daily := st1.dailyEnergyKwh + energyKwh
  (daily, { st1 with dailyEnergyKwh := daily })

/-- The fields of a `PVReading` produced by the PV simulator (timestamp and
`readings`; the constant `system_id` is omitted). -/
structure PVReadingQ where
  ts : ℤ
  powerOutputKw : ℚ
  dailyEnergyKwh : ℚ
  irradianceWM2 : ℚ
  moduleTemperatureC : ℚ
  efficiencyPercent : ℚ
deriving DecidableEq

/-- `PVGenerationSimulator.generate_value` at an aligned timestamp `t`.  The
weather simulator reference is represented by the pure functions
`weatherGhi` and `weatherTemp` giving the GHI and ambient temperature of the
referenced weather generator's reading at `t` (the weather generator is
stateless, so its reading is a function of the timestamp; see the weather
embedding below).  The daily-energy accumulator is threaded explicitly. -/
def pvGenerateValue (weatherGhi weatherTemp : ℤ → ℚ) (cfg : PVConfig)
    (iv : IntervalMinutes) (st : PVEnergyState) (t : ℤ) : PVReadingQ × PVEnergyState :=
  let irradianceWM2 := weatherGhi t
  let ambientTempC := weatherTemp t
  let moduleTempC := calculateModuleTemperature cfg ambientTempC irradianceWM2
  let powerKw := calculatePowerOutput cfg irradianceWM2 moduleTempC
  let (dailyEnergyKwh, st2) := updateDailyEnergy st (Int.fdiv t 86400) powerKw iv.minutes
  (⟨t, powerKw, dailyEnergyKwh, irradianceWM2, moduleTempC,
    calculateEfficiency cfg powerKw irradianceWM2⟩, st2)

/-- Generate PV readings for a list of aligned timestamps in the given order
on a single simulator instance, threading the accumulator state. -/
def pvGenerateSeq (weatherGhi weatherTemp : ℤ → ℚ) (cfg : PVConfig)
    (iv : IntervalMinutes) (st : PVEnergyState) : List ℤ → List PVReadingQ
  | [] => []
  | t :: rest =>
    let (r, st2) := pvGenerateValue weatherGhi weatherTemp cfg iv st t
    r :: pvGenerateSeq weatherGhi weatherTemp cfg iv st2 rest

/-- The stateless fields of a PV reading (everything except the
daily-energy accumulator value). -/
def PVReadingQ.statelessFields (r : PVReadingQ) : ℤ × ℚ × ℚ × ℚ × ℚ :=
  (r.ts, r.powerOutputKw, r.irradianceWM2, r.moduleTemperatureC, r.efficiencyPercent)

/-! ## `src/simulators/correlation/engine.py`: derived metrics -/

/-- `MeterReadings` (`src/models/meter.py`): the measurement fields of one
meter reading. -/
structure MeterReadingsQ where
  activePowerL1W : ℚ
  activePowerL2W : ℚ
  activePowerL3W : ℚ
  voltageL1V : ℚ
  voltageL2V : ℚ
  voltageL3V : ℚ
  currentL1A : ℚ
  currentL2A : ℚ
  currentL3A : ℚ
  powerFactor : ℚ
  frequencyHz : ℚ
  totalEnergyKwh : ℚ
deriving DecidableEq

/-- `DerivedMetrics` (`src/models/correlation.py`). -/
structure DerivedMetrics where
  totalConsumptionKw : ℚ
  totalGenerationKw : ℚ
  netGridPowerKw : ℚ
  selfConsumptionFrac : ℚ
  currentCostEurPerHour : ℚ
deriving DecidableEq

/-- `CorrelationEngine._calculate_metrics`: meters contribute the sum of
their three phase powers (W → kW), loads their device power, PV systems
their power output; the self-consumption share is `min(gen, cons) / gen`
when generation is positive and `0` otherwise, clamped to `[0, 1]`; the
cost rate is charged only for positive net grid power and only when a price
reading is present.  (`selfConsumptionFrac` embeds the source field
`self_consumption_ratio`.) -/
def calculateMetrics (meterReadings : List MeterReadingsQ) (consumerLoadPowersKw : List ℚ)
    (pvPowersKw : List ℚ) (priceEurPerKwh : Option ℚ) : DerivedMetrics :=
  let meterConsumptionKw := (meterReadings.map (fun m =>
    (m.activePowerL1W + m.activePowerL2W + m.activePowerL3W) / 1000)).sum
  let loadConsumptionKw := consumerLoadPowersKw.sum
  let totalConsumptionKw := meterConsumptionKw + loadConsumptionKw
  let totalGenerationKw := pvPowersKw.sum
  let netGridPowerKw := totalConsumptionKw - totalGenerationKw
  let frac0 :=
    if 0 < totalGenerationKw then
      min totalGenerationKw totalConsumptionKw / totalGenerationKw
    else 0
  let selfConsumptionFrac := pymax 0 (pymin 1 frac0)
  let currentCostEurPerHour :=
    match priceEurPerKwh with
    | some p => if 0 < netGridPowerKw then netGridPowerKw * p else 0
    | none => 0
  ⟨totalConsumptionKw, totalGenerationKw, netGridPowerKw, selfConsumptionFrac,
    currentCostEurPerHour⟩

/-! ## `src/core/clock.py` -/

/-- `ClockState`. -/
inductive ClockState where
  | STOPPED
  | RUNNING
  | PAUSED
deriving DecidableEq

/-- The mutable state of a `SimulationClock`.  Monotonic-clock readings
(`time.monotonic()`) are inputs to the operations that sample them. -/
structure Clock where
  acceleration : ℤ
  state : ClockState
  startSimulationTime : ℚ
  startRealTime : Option ℚ
  pauseRealTime : Option ℚ
  accumulatedPauseDuration : ℚ
  currentSimulationTime : ℚ
deriving DecidableEq

/-- `SimulationClock._update_simulation_time` with the sampled monotonic
time passed in: no-op when no real-time anchor exists. -/
def clockUpdateSimulationTime (c : Clock) (mono : ℚ) : Clock :=
  match c.startRealTime with
  | none => c
  | some srt =>
    let elapsedReal := mono - srt - c.accumulatedPauseDuration
    { c with currentSimulationTime :=
        c.startSimulationTime + elapsedReal * (c.acceleration : ℚ) }

/-- The `SimulationClock.simulation_time` property: refresh from the anchor
while RUNNING, then return the stored simulation time (with the mutated
clock object). -/
def clockSimulationTime (c : Clock) (mono : ℚ) : ℚ × Clock :=
  let c2 := if c.state = ClockState.RUNNING then clockUpdateSimulationTime c mono else c
  (c2.currentSimulationTime, c2)

/-- `SimulationClock.reset`: go to STOPPED, drop both real-time anchors and
the accumulated pause total, and set both simulation times to the provided
start time (or keep the original one). -/
def clockReset (c : Clock) (startTime : Option ℚ) : Clock :=
  let newStart := startTime.getD c.startSimulationTime
  { c with
    state := ClockState.STOPPED
    startRealTime := none
    pauseRealTime := none
    accumulatedPauseDuration := 0
    startSimulationTime := newStart
    currentSimulationTime := newStart }

/-- `SimulationClock.advance_to` with the target time already parsed and the
monotonic sample passed in.  The returned pair is (post-call object state,
result): the validation check precedes every mutation in the source, so the
error branch leaves the object exactly as it was. -/
def advanceTo (c : Clock) (target mono : ℚ) : Clock × Except String ℚ :=
  if target < c.currentSimulationTime then
    (c, Except.error "Cannot advance to a time in the past")
  else
    let c1 := { c with currentSimulationTime := target }
    let c2 :=
      if c1.state = ClockState.RUNNING then
        { c1 with
          startSimulationTime := target
          startRealTime := some mono
          accumulatedPauseDuration := 0 }
      else c1
    (c2, Except.ok target)

/-- Whether an `Except` result is the error case. -/
def exceptIsError {ε α : Type} : Except ε α → Bool
  | Except.error _ => true
  | Except.ok _ => false

/-! ## `src/core/engine.py` -/

/-- `EngineState`. -/
inductive EngineState where
  | INITIALIZED
  | RUNNING
  | PAUSED
  | STOPPED
deriving DecidableEq

/-- A registered PV generator as held by the engine registry: the bound RNG
(represented by its base seed), the configuration, the interval, the
non-owning weather-simulator reference (as the pure per-timestamp GHI and
ambient-temperature functions), and the per-instance daily-energy
accumulator. -/
structure PVGen where
  rngSeed : ℕ
  config : PVConfig
  interval : IntervalMinutes
  weatherGhi : ℤ → ℚ
  weatherTemp : ℤ → ℚ
  energyState : PVEnergyState

/-- `PVGenerationSimulator.__init__`: a freshly constructed generator has
`_last_energy_date = None` and `_daily_energy_kwh = 0.0`. -/
def freshPVGen (rngSeed : ℕ) (cfg : PVConfig) (iv : IntervalMinutes)
    (weatherGhi weatherTemp : ℤ → ℚ) : PVGen :=
  { rngSeed := rngSeed
    config := cfg
    interval := iv
    weatherGhi := weatherGhi
    weatherTemp := weatherTemp
    energyState := PVEnergyState.initial }

/-- `generate_at` on a registered PV generator: align, generate, mutate the
accumulator. -/
def pvGeneratorGenerateAt (g : PVGen) (t : ℚ) : (ℤ × PVReadingQ) × PVGen :=
  let aligned := alignTimestamp g.interval t
  let (r, st2) := pvGenerateValue g.weatherGhi g.weatherTemp g.config g.interval
    g.energyState aligned
  ((aligned, r), { g with energyState := st2 })

/-- The state of the `SimulationEngine` facade. -/
structure Engine where
  seed : ℕ
  rngSeed : ℕ
  engineState : EngineState
  clock : Clock
  generators : List (String × PVGen)

/-- In-place mutation of one registry entry (Python mutates the generator
object held in the dict). -/
def updateGen (gens : List (String × PVGen)) (entityId : String) (g : PVGen) :
    List (String × PVGen) :=
  gens.map (fun p => if p.1 = entityId then (p.1, g) else p)

/-- `SimulationEngine.reset`: reset the clock, flip the state to
INITIALIZED; when a new seed is given, store it, construct a fresh RNG from
it, and reassign every registered generator's `_rng` to the fresh RNG — the
source mutates `generator._rng` in place and does not construct new
generator objects, so all other per-generator state is left untouched. -/
def engineReset (e : Engine) (startTime : Option ℚ) (newSeed : Option ℕ) : Engine :=
  let e1 := { e with clock := clockReset e.clock startTime, engineState := EngineState.INITIALIZED }
  match newSeed with
  | none => e1
  | some s =>
    { e1 with
      seed := s
      rngSeed := s
      generators := e1.generators.map (fun p => (p.1, { p.2 with rngSeed := s })) }

/-- `SimulationEngine.generate_current`: look the entity up; on a miss
return `None` without touching anything; on a hit sample the simulation
time (which refreshes the clock while RUNNING) and generate at it. -/
def engineGenerateCurrent (e : Engine) (entityId : String) (mono : ℚ) :
    Option (ℤ × PVReadingQ) × Engine :=
  match e.generators.lookup entityId with
  | none => (none, e)
  | some g =>
    let (t, c2) := clockSimulationTime e.clock mono
    let (pt, g2) := pvGeneratorGenerateAt g t
    (some pt, { e with clock := c2, generators := updateGen e.generators entityId g2 })

/-- `SimulationEngine.generate_at`: look the entity up; on a miss return
`None` without touching anything (the timestamp is not even parsed); on a
hit generate at the given timestamp. -/
def engineGenerateAt (e : Engine) (entityId : String) (ts : ℚ) :
    Option (ℤ × PVReadingQ) × Engine :=
  match e.generators.lookup entityId with
  | none => (none, e)
  | some g =>
    let (pt, g2) := pvGeneratorGenerateAt g ts
    (some pt, { e with generators := updateGen e.generators entityId g2 })

/-! ## `src/simulators/energy_meter/register_map.py` and
`src/api/modbus/server.py` -/

/-- The addresses of `ALL_REGISTERS`, in the source's order (all are
FLOAT32, spanning two 16-bit registers each, `scale = 1.0`). -/
def registerAddresses : List ℤ :=
  [19000, 19002, 19004, 19006, 19020, 19022, 19024, 19040, 19042, 19044,
   19060, 19062, 19064]

/-- `MAX_REGISTER_ADDRESS = max(reg.address + reg.register_count - 1)`. -/
def maxRegisterAddress : ℤ :=
  ((registerAddresses.map (fun a => a + 2 - 1)).max?).getD 0

/-- `get_all_register_values`: register address → float value extracted from
the reading (`scale = 1.0` throughout). -/
def getAllRegisterValues (r : MeterReadingsQ) : List (ℤ × ℚ) :=
  [(19000, r.activePowerL1W), (19002, r.activePowerL2W), (19004, r.activePowerL3W),
   (19006, r.activePowerL1W + r.activePowerL2W + r.activePowerL3W),
   (19020, r.voltageL1V), (19022, r.voltageL2V), (19024, r.voltageL3V),
   (19040, r.currentL1A), (19042, r.currentL2A), (19044, r.currentL3A),
   (19060, r.powerFactor), (19062, r.totalEnergyKwh), (19064, r.frequencyHz)]

/-- `JanitzaDataBlock._refresh_registers` with the provider's answer for
this block's meter passed in.  `float32ToRegisters` abstracts
`float32_to_registers` (IEEE-754 single-precision big-endian packing into a
high and a low 16-bit word).  When no reading is available the method
returns early and the cache keeps its previous contents; otherwise the cache
is cleared and repopulated at `address + 1` / `address + 2` (the source's
deliberate one-register offset for pymodbus). -/
def refreshRegisters (float32ToRegisters : ℚ → ℕ × ℕ)
    (reading : Option MeterReadingsQ) (cache : List (ℤ × ℕ)) : List (ℤ × ℕ) :=
  match reading with
  | none => cache
  | some r =>
    (getAllRegisterValues r).flatMap (fun av =>
      [(av.1 + 1, (float32ToRegisters av.2).1), (av.1 + 2, (float32ToRegisters av.2).2)])

/-- `self._register_cache.get(addr, 0)`. -/
def cacheLookup (cache : List (ℤ × ℕ)) (addr : ℤ) : ℕ :=
  (cache.lookup addr).getD 0

/-- `JanitzaDataBlock.getValues`: refresh the cache from the provider, then
return one value per requested address, defaulting to `0` for addresses not
present in the cache.  Every step is total: the read cannot raise. -/
def getValues (float32ToRegisters : ℚ → ℕ × ℕ) (reading : Option MeterReadingsQ)
    (cache : List (ℤ × ℕ)) (address : ℤ) (count : ℕ) : List ℕ :=
  let c := refreshRegisters float32ToRegisters reading cache
  (List.range count).map (fun i : ℕ => cacheLookup c (address + (i : ℤ)))

/-- `JanitzaDataBlock.validate`: permissive address-range check. -/
def validate (address : ℤ) (count : ℕ) : Bool :=
  decide (0 ≤ address) && decide (address + count - 1 ≤ maxRegisterAddress + 100)

/-! ## `src/core/random_generator.py`: seed derivation

`DeterministicRNG._compute_timestamp_seed` hashes a UTF-8 string with
SHA-256 and takes the leading 8 bytes.  The hash itself is kept abstract;
the embedding works at the level of the hash input string, which determines
the derived sub-stream. -/

/-- The hash input of `_compute_timestamp_seed`:
`f"{base_seed}:{entity_id}:{timestamp_ms}"`. -/
def timestampSeedInput (baseSeed : ℕ) (entityId : String) (timestampMs : ℤ) : String :=
  toString baseSeed ++ ":" ++ entityId ++ ":" ++ toString timestampMs

/-- The entity key the weather simulator passes to `get_timestamp_rng` for
the irradiance sub-stream: `f"{self._entity_id}_irr"`
(`WeatherSimulator.generate_value`). -/
def weatherIrrStreamKey (entityId : String) : String :=
  entityId ++ "_irr"

/-! ## `src/simulators/weather/` -/

/-- Python `a % b` on floats: the result has the sign of the divisor. -/
def pyFloatMod (a b : ℚ) : ℚ :=
  a - b * ⌊a / b⌋

/-- The transcendental `math` functions the weather model uses, kept
abstract; every theorem about the weather model quantifies over their
interpretation.  `sin2pi x` stands for `sin (2πx)` and `cos2pi x` for
`cos (2πx)` (the source always forms such angles); `sinDeg`, `cosDeg` are
sine and cosine of an angle in degrees; `asinDeg`, `acosDeg` are arcsine
and arccosine returning degrees; `rpow a b` is `a ** b`. -/
structure SolarOracle where
  sin2pi : ℚ → ℚ
  cos2pi : ℚ → ℚ
  sinDeg : ℚ → ℚ
  cosDeg : ℚ → ℚ
  asinDeg : ℚ → ℚ
  acosDeg : ℚ → ℚ
  rpow : ℚ → ℚ → ℚ

/-- `temperature.get_seasonal_factor`: `cos(2π(d − 182)/365)`. -/
def getSeasonalFactor (O : SolarOracle) (t : ℤ) : ℚ :=
  O.cos2pi (((dayOfYear t : ℚ) - 182) / 365)

/-- `temperature.get_diurnal_factor`: `cos(2π(h − 15)/24)`. -/
def getDiurnalFactor (O : SolarOracle) (t : ℤ) : ℚ :=
  O.cos2pi ((hourFrac t - 15) / 24)

/-- `wind.calculate_cloud_cover`: diurnal cloud modulation, then one normal
draw when the variance is positive, then clamping to `[0, 100]`.  The draw
streams are lists of realised values consumed front to back. -/
def calculateCloudCover (O : SolarOracle) (t : ℤ) (baseCoverPercent variancePercent : ℚ)
    (s : List ℚ) : ℚ × List ℚ :=
  let diurnalVariation := -(15/100) * O.cos2pi ((hourFrac t - 15) / 24)
  let cover := baseCoverPercent * (1 + diurnalVariation)
  let step := if 0 < variancePercent then (cover + s.headD 0, s.tail) else (cover, s)
  (pymax 0 (pymin 100 step.1), step.2)

/-- `temperature.calculate_temperature`: seasonal blend, diurnal swing with
season-modulated amplitude, then one normal draw when the variance is
positive. -/
def calculateTemperature (O : SolarOracle) (t : ℤ)
    (baseSummerC baseWinterC dailyAmplitudeC varianceC : ℚ) (s : List ℚ) : ℚ × List ℚ :=
  let seasonalFactor := getSeasonalFactor O t
  let seasonalTemp := (baseSummerC + baseWinterC) / 2
    + ((baseSummerC - baseWinterC) / 2) * seasonalFactor
  let effectiveAmplitude := dailyAmplitudeC * (6/10 + (4/10) * (seasonalFactor + 1) / 2)
  let temp := seasonalTemp + effectiveAmplitude * getDiurnalFactor O t
  if 0 < varianceC then (temp + s.headD 0, s.tail) else (temp, s)

/-- `temperature.calculate_humidity_from_temperature`: inverse correlation
with temperature, one normal draw when the variance is positive, clamping to
`[20, 95]`. -/
def calculateHumidityFromTemperature (temperatureC baseHumidity variance : ℚ)
    (s : List ℚ) : ℚ × List ℚ :=
  let tempEffect := pymax 0 (temperatureC - 15) * 1
  let humidity := baseHumidity - tempEffect
  let step := if 0 < variance then (humidity + s.headD 0, s.tail) else (humidity, s)
  (pymax 20 (pymin 95 step.1), step.2)

/-- `wind.get_diurnal_wind_factor`: `1 − 0.4 cos(2π(h − 14)/24)` clamped to
`[0.6, 1.4]`. -/
def getDiurnalWindFactor (O : SolarOracle) (t : ℤ) : ℚ :=
  pymax (6/10) (pymin (14/10) (1 - (4/10) * O.cos2pi ((hourFrac t - 14) / 24)))

/-- `wind.calculate_wind_speed`: diurnal factor, one gust draw when the
variance is positive, clamped to be non-negative. -/
def calculateWindSpeed (O : SolarOracle) (t : ℤ) (baseSpeedMs varianceMs : ℚ)
    (s : List ℚ) : ℚ × List ℚ :=
  let speed := baseSpeedMs * getDiurnalWindFactor O t
  let step := if 0 < varianceMs then (speed + s.headD 0, s.tail) else (speed, s)
  (pymax 0 step.1, step.2)

/-- `wind.calculate_wind_direction`: one deviation draw when the variance is
positive, normalised into `[0, 360)`. -/
def calculateWindDirection (prevailingDirectionDeg varianceDeg : ℚ)
    (s : List ℚ) : ℚ × List ℚ :=
  let step := if 0 < varianceDeg then (prevailingDirectionDeg + s.headD 0, s.tail)
    else (prevailingDirectionDeg, s)
  let d := pyFloatMod step.1 360
  ((if d < 0 then d + 360 else d), step.2)

/-- `irradiance.calculate_solar_position`: declination, equation of time,
hour angle, altitude and azimuth.  Returns
`(altitude clamped to ≥ 0, azimuth, is_daylight)`; `is_daylight` uses the
unclamped altitude, exactly as the source does. -/
def calculateSolarPosition (O : SolarOracle) (t : ℤ) (latitude longitude : ℚ) :
    ℚ × ℚ × Bool :=
  let doy : ℚ := (dayOfYear t : ℚ)
  let hourUtc : ℚ := (hourOf t : ℚ) + (minuteOf t : ℚ) / 60 + (secondOf t : ℚ) / 3600
  let declinationDeg := (2345/100) * O.sin2pi ((284 + doy) / 365)
  let eotMinutes := (987/100) * O.sin2pi (2 * (doy - 81) / 365)
    - (753/100) * O.cos2pi ((doy - 81) / 365) - (3/2) * O.sin2pi ((doy - 81) / 365)
  let timeOffset := 4 * longitude
  let solarTime := hourUtc * 60 + timeOffset + eotMinutes
  let hourAngleDeg := solarTime / 4 - 180
  let sinAltitude := O.sinDeg latitude * O.sinDeg declinationDeg
    + O.cosDeg latitude * O.cosDeg declinationDeg * O.cosDeg hourAngleDeg
  let altitudeDeg := O.asinDeg (pymax (-1) (pymin 1 sinAltitude))
  let cosAzimuth := pymax (-1) (pymin 1
    ((O.sinDeg declinationDeg - O.sinDeg latitude * O.sinDeg altitudeDeg)
      / (O.cosDeg latitude * O.cosDeg altitudeDeg + 1 / 10000000000)))
  let azimuthDeg := if hourAngleDeg < 0 then O.acosDeg cosAzimuth
    else 360 - O.acosDeg cosAzimuth
  (pymax 0 altitudeDeg, azimuthDeg, decide (0 < altitudeDeg))

/-- `irradiance.calculate_clear_sky_ghi`: `sin(altitude)` bell curve with an
air-mass attenuation `0.7 ** (AM ** 0.678)`; zero at or below the horizon. -/
def calculateClearSkyGhi (O : SolarOracle) (solarAltitudeDeg maxGhiWM2 : ℚ) : ℚ :=
  if solarAltitudeDeg ≤ 0 then 0
  else
    let airMass := 1 / pymax (O.sinDeg solarAltitudeDeg) (1/20)
    let transmission := O.rpow (7/10) (O.rpow airMass (678/1000))
    pymax 0 (maxGhiWM2 * O.sinDeg solarAltitudeDeg * transmission)

/-- `irradiance.apply_cloud_factor`: multiplier `1 − 0.5 cover/100` plus one
uniform draw (the generator is always supplied on this call path), clamped
to `[0.3, 1.0]`; zero GHI propagates without consuming a draw. -/
def applyCloudFactor (clearSkyGhi cloudCoverPercent : ℚ) (s : List ℚ) : ℚ × List ℚ :=
  if clearSkyGhi ≤ 0 then (0, s)
  else
    let baseFactor := 1 - (1/2) * (cloudCoverPercent / 100)
    let variability := s.headD 0
    let factor := pymax (3/10) (pymin 1 (baseFactor + variability))
    (clearSkyGhi * factor, s.tail)

/-- The three irradiance components. -/
structure IrradianceReadingQ where
  ghiWM2 : ℚ
  dniWM2 : ℚ
  dhiWM2 : ℚ
deriving DecidableEq

/-- `irradiance.calculate_irradiance_components`: Erbs-style split of GHI
into diffuse and direct components via a clearness index estimated from
cloud cover. -/
def calculateIrradianceComponents (O : SolarOracle)
    (ghiWM2 solarAltitudeDeg cloudCoverPercent : ℚ) : IrradianceReadingQ :=
  if ghiWM2 ≤ 0 ∨ solarAltitudeDeg ≤ 0 then ⟨0, 0, 0⟩
  else
    let kt := 1 - (7/10) * (cloudCoverPercent / 100)
    let diffuseFraction :=
      if kt ≤ 22/100 then 1 - (9/100) * kt
      else if kt ≤ 8/10 then
        9511/10000 - (1604/10000) * kt + (4388/1000) * kt ^ 2
          - (16638/1000) * kt ^ 3 + (12336/1000) * kt ^ 4
      else 165/1000
    let dhi := ghiWM2 * diffuseFraction
    let directHorizontal := ghiWM2 - dhi
    let dni := directHorizontal / pymax (O.sinDeg solarAltitudeDeg) (1/20)
    ⟨pymax 0 ghiWM2, pymax 0 (pymin dni 1200), pymax 0 dhi⟩

/-- `irradiance.calculate_full_irradiance`: solar position, clear-sky GHI,
cloud attenuation (consuming its draw from the supplied stream), component
split. -/
def calculateFullIrradiance (O : SolarOracle) (t : ℤ)
    (latitude longitude cloudCoverPercent maxGhiWM2 : ℚ) (s : List ℚ) :
    IrradianceReadingQ × List ℚ :=
  let pos := calculateSolarPosition O t latitude longitude
  if pos.2.2 = false then (⟨0, 0, 0⟩, s)
  else
    let clearSkyGhi := calculateClearSkyGhi O pos.1 maxGhiWM2
    let step := applyCloudFactor clearSkyGhi cloudCoverPercent s
    (calculateIrradianceComponents O step.1 pos.1 cloudCoverPercent, step.2)

/-- `WeatherConfig` (`src/models/weather.py`): the fields
`WeatherSimulator.generate_value` consumes. -/
structure WeatherConfigQ where
  latitude : ℚ
  longitude : ℚ
  baseTemperatureSummerC : ℚ
  baseTemperatureWinterC : ℚ
  dailyTempAmplitudeC : ℚ
  temperatureVarianceC : ℚ
  maxClearSkyGhiWM2 : ℚ
  baseCloudCoverPercent : ℚ
  cloudVariancePercent : ℚ
  baseWindSpeedMs : ℚ
  windVarianceMs : ℚ
  prevailingWindDirectionDeg : ℚ
  windDirectionVarianceDeg : ℚ
  baseHumidityPercent : ℚ
  humidityVariancePercent : ℚ
deriving DecidableEq

/-- `WeatherConditions` (`src/models/weather.py`). -/
structure WeatherConditionsQ where
  temperatureC : ℚ
  humidityPercent : ℚ
  windSpeedMs : ℚ
  windDirectionDeg : ℚ
  cloudCoverPercent : ℚ
  ghiWM2 : ℚ
  dniWM2 : ℚ
  dhiWM2 : ℚ
deriving DecidableEq

/-- `WeatherSimulator.generate_value` at an aligned timestamp `t`.  The
per-timestamp draw streams are given by `streams`, indexed by the entity key
passed to `get_timestamp_rng` (the base seed and `t` are fixed throughout
one call).  The five draws on the entity stream happen in source order —
cloud cover, temperature, humidity, wind speed, wind direction — by
threading the stream; the irradiance micro-variability consumes from the
separate stream for key `entityId ++ "_irr"`. -/
def weatherGenerateValue (O : SolarOracle) (cfg : WeatherConfigQ) (entityId : String)
    (streams : String → List ℚ) (t : ℤ) : WeatherConditionsQ :=
  let s0 := streams entityId
  let c := calculateCloudCover O t cfg.baseCloudCoverPercent cfg.cloudVariancePercent s0
  let tp := calculateTemperature O t cfg.baseTemperatureSummerC cfg.baseTemperatureWinterC
    cfg.dailyTempAmplitudeC cfg.temperatureVarianceC c.2
  let h := calculateHumidityFromTemperature tp.1 cfg.baseHumidityPercent
    cfg.humidityVariancePercent tp.2
  let w := calculateWindSpeed O t cfg.baseWindSpeedMs cfg.windVarianceMs h.2
  let wd := calculateWindDirection cfg.prevailingWindDirectionDeg
    cfg.windDirectionVarianceDeg w.2
  let sIrr := streams (weatherIrrStreamKey entityId)
  let irr := (calculateFullIrradiance O t cfg.latitude cfg.longitude c.1
    cfg.maxClearSkyGhiWM2 sIrr).1
  ⟨tp.1, h.1, w.1, wd.1, c.1, irr.ghiWM2, irr.dniWM2, irr.dhiWM2⟩

/-- The specification's statement of the weather generator's per-timestamp
random-draw contract, with the draws written by explicit position: draw 0 is
the cloud-cover noise, draw 1 the temperature noise, draw 2 the humidity
noise, draw 3 the wind-speed gust, draw 4 the wind-direction deviation, and
the irradiance cloud micro-variability comes from the separate sub-stream
for the key `entityId ++ irrKeySuffix`.  The spec claims
`irrKeySuffix = ":irr"`; the source uses `"_irr"`. -/
def weatherGenerateValueDraws (O : SolarOracle) (irrKeySuffix : String)
    (cfg : WeatherConfigQ) (entityId : String) (streams : String → List ℚ)
    (t : ℤ) : WeatherConditionsQ :=
  let s := streams entityId
  let cloud := pymax 0 (pymin 100
    (cfg.baseCloudCoverPercent * (1 + -(15/100) * O.cos2pi ((hourFrac t - 15) / 24))
      + s.getD 0 0))
  let seasonalFactor := getSeasonalFactor O t
  let temp := (cfg.baseTemperatureSummerC + cfg.baseTemperatureWinterC) / 2
    + ((cfg.baseTemperatureSummerC - cfg.baseTemperatureWinterC) / 2) * seasonalFactor
    + cfg.dailyTempAmplitudeC * (6/10 + (4/10) * (seasonalFactor + 1) / 2)
      * getDiurnalFactor O t
    + s.getD 1 0
  let humidity := pymax 20 (pymin 95
    (cfg.baseHumidityPercent - pymax 0 (temp - 15) * 1 + s.getD 2 0))
  let windSpeed := pymax 0
    (cfg.baseWindSpeedMs * getDiurnalWindFactor O t + s.getD 3 0)
  let d := pyFloatMod (cfg.prevailingWindDirectionDeg + s.getD 4 0) 360
  let windDirection := if d < 0 then d + 360 else d
  let irr := (calculateFullIrradiance O t cfg.latitude cfg.longitude cloud
    cfg.maxClearSkyGhiWM2 (streams (entityId ++ irrKeySuffix))).1
  ⟨temp, humidity, windSpeed, windDirection, cloud, irr.ghiWM2, irr.dniWM2, irr.dhiWM2⟩

/-- The stateless fields of a generated PV reading as a pure function of
the timestamp (they do not touch the daily-energy accumulator). -/
def pvStatelessReading (weatherGhi weatherTemp : ℤ → ℚ) (cfg : PVConfig) (t : ℤ) :
    ℤ × ℚ × ℚ × ℚ × ℚ :=
  let irradianceWM2 := weatherGhi t
  let moduleTempC := calculateModuleTemperature cfg (weatherTemp t) irradianceWM2
  let powerKw := calculatePowerOutput cfg irradianceWM2 moduleTempC
  (t, powerKw, irradianceWM2, moduleTempC, calculateEfficiency cfg powerKw irradianceWM2)

/-! ## Concrete instances used to exercise the definitions -/

/-- A clock instance: STOPPED, acceleration 1, simulation time at 10 s. -/
def clockExample : Clock :=
  { acceleration := 1
    state := ClockState.STOPPED
    startSimulationTime := 0
    startRealTime := none
    pauseRealTime := none
    accumulatedPauseDuration := 0
    currentSimulationTime := 10 }

/-- A registered PV generator that has already accumulated daily energy:
`_last_energy_date = 2024-01-01`, `_daily_energy_kwh = 2.5`. -/
def pvGenExample : PVGen :=
  { rngSeed := 12345
    config := PVConfig.default
    interval := IntervalMinutes.fifteenMinutes
    weatherGhi := fun _ => 0
    weatherTemp := fun _ => 0
    energyState := { lastEnergyDate := some 19723, dailyEnergyKwh := 5/2 } }

/-- An engine with one registered PV generator. -/
def engineExample : Engine :=
  { seed := 12345
    rngSeed := 12345
    engineState := EngineState.RUNNING
    clock := clockExample
    generators := [("pv-1", pvGenExample)] }

/-- A weather GHI profile used to exercise the PV daily-energy accumulator:
800 W/m² at the aligned timestamp 900 s, night otherwise. -/
def ghiExample : ℤ → ℚ :=
  fun t => if t = 900 then 800 else 0

/-- Constant 25 °C ambient temperature. -/
def ambientExample : ℤ → ℚ :=
  fun _ => 25

/-- A concrete interpretation of the transcendental functions, used to
evaluate the weather model on explicit inputs (the theorems about the
weather model hold for every interpretation). -/
def oracleExample : SolarOracle :=
  { sin2pi := fun _ => 0
    cos2pi := fun _ => 0
    sinDeg := fun _ => 1/2
    cosDeg := fun _ => 1/2
    asinDeg := fun _ => 30
    acosDeg := fun _ => 0
    rpow := fun _ _ => 1 }

/-- A weather configuration with all variances zero (so no draw on the
entity stream is consumed) and 40 % base cloud cover. -/
def weatherConfigZeroVar : WeatherConfigQ :=
  { latitude := 0
    longitude := 0
    baseTemperatureSummerC := 20
    baseTemperatureWinterC := 2
    dailyTempAmplitudeC := 8
    temperatureVarianceC := 0
    maxClearSkyGhiWM2 := 1000
    baseCloudCoverPercent := 40
    cloudVariancePercent := 0
    baseWindSpeedMs := 4
    windVarianceMs := 0
    prevailingWindDirectionDeg := 270
    windDirectionVarianceDeg := 0
    baseHumidityPercent := 65
    humidityVariancePercent := 0 }

/-- The same weather configuration with every variance positive. -/
def weatherConfigUnitVar : WeatherConfigQ :=
  { weatherConfigZeroVar with
    temperatureVarianceC := 1
    cloudVariancePercent := 1
    windVarianceMs := 1
    windDirectionVarianceDeg := 1
    humidityVariancePercent := 1 }

/-- Draw streams that put the value 1/10 on the sub-stream for the key
`"ws_irr"` (the key the source derives) and leave every other stream
empty — in particular the stream for the key `"ws:irr"` named by the
specification. -/
def streamsExample : String → List ℚ :=
  fun k => if k = "ws_irr" then [1/10] else []

/-- A concrete Modbus meter reading. -/
def meterReadingExample : MeterReadingsQ :=
  ⟨1, 2, 3, 4, 5, 6, 7, 8, 9, 10, 11, 12⟩

/-! ## Helper lemmas -/

/-- `dict.get(addr, 0)` on an association list without the key yields the
default. -/
theorem lookup_eq_none_of_not_mem_keys {β : Type} (c : List (ℤ × β)) (a : ℤ)
    (h : a ∉ c.map Prod.fst) : c.lookup a = none := by
  induction c with
  | nil => rfl
  | cons p r ih =>
    simp only [List.map_cons, List.mem_cons] at h
    push_neg at h
    have hb : (a == p.1) = false := beq_eq_false_iff_ne.mpr h.1
    simp [List.lookup, hb, ih h.2]

/-- Indexing the mapped range with a default. -/
theorem getD_map_range {α : Type} [Inhabited α] (f : ℕ → α) (n i : ℕ) (d : α)
    (h : i < n) : ((List.range n).map f).getD i d = f i := by
  simp [List.getD, List.getElem?_map, List.getElem?_range h]

/-- Python `min` agrees with the lattice `min`. -/
theorem pymin_eq_min (a b : ℚ) : pymin a b = min a b :=
  (min_def a b).symm

/-- Python `max` agrees with the lattice `max`. -/
theorem pymax_eq_max (a b : ℚ) : pymax a b = max a b :=
  (max_def a b).symm

/-- `pyTrunc` is the floor on non-negative inputs. -/
theorem pyTrunc_of_nonneg (q : ℚ) (h : 0 ≤ q) : pyTrunc q = ⌊q⌋ := by
  simp [pyTrunc, not_lt.mpr h]

/-- `pyTrunc` fixes integers. -/
theorem pyTrunc_intCast (n : ℤ) : pyTrunc (n : ℚ) = n := by
  unfold pyTrunc
  split <;> simp

/-- Interval lengths in seconds are positive. -/
theorem intervalSeconds_pos (iv : IntervalMinutes) : 0 < iv.seconds := by
  cases iv <;> decide

/-- Projecting the generated sequence to the stateless fields forgets the
accumulator state. -/
theorem pvGenerateSeq_statelessFields (weatherGhi weatherTemp : ℤ → ℚ) (cfg : PVConfig)
    (iv : IntervalMinutes) (st : PVEnergyState) (l : List ℤ) :
    (pvGenerateSeq weatherGhi weatherTemp cfg iv st l).map PVReadingQ.statelessFields
      = l.map (pvStatelessReading weatherGhi weatherTemp cfg) := by
  induction l generalizing st with
  | nil => rfl
  | cons t rest ih =>
    simp [pvGenerateSeq, pvGenerateValue, PVReadingQ.statelessFields,
      pvStatelessReading, ih]

/-! ## Claim C5 -/

/-- Claim C5: for every correlated snapshot, the derived metrics satisfy
`self_consumption_ratio = min(total_generation, total_consumption) /
total_generation` when the generation is positive and `0` otherwise, clamped
to `[0, 1]`; and `current_cost_eur_per_hour = max(0, net_grid_power_kw) ×
price_eur_per_kwh` when a price reading exists and `0` otherwise. -/
theorem c5_derived_metrics (meterReadings : List MeterReadingsQ)
    (consumerLoadPowersKw pvPowersKw : List ℚ) (priceEurPerKwh : Option ℚ) :
    (calculateMetrics meterReadings consumerLoadPowersKw pvPowersKw
        priceEurPerKwh).selfConsumptionFrac
      = max 0 (min 1
          (if 0 < (calculateMetrics meterReadings consumerLoadPowersKw pvPowersKw
              priceEurPerKwh).totalGenerationKw then
            min (calculateMetrics meterReadings consumerLoadPowersKw pvPowersKw
                priceEurPerKwh).totalGenerationKw
              (calculateMetrics meterReadings consumerLoadPowersKw pvPowersKw
                priceEurPerKwh).totalConsumptionKw
              / (calculateMetrics meterReadings consumerLoadPowersKw pvPowersKw
                priceEurPerKwh).totalGenerationKw
          else 0))
    ∧ (calculateMetrics meterReadings consumerLoadPowersKw pvPowersKw
        priceEurPerKwh).currentCostEurPerHour
      = (match priceEurPerKwh with
          | some p => max 0 (calculateMetrics meterReadings consumerLoadPowersKw
              pvPowersKw priceEurPerKwh).netGridPowerKw * p
          | none => 0) := by
  unfold calculateMetrics
  simp only [pymax_eq_max, pymin_eq_min]
  refine ⟨by trivial, ?_⟩
  cases priceEurPerKwh with
  | none => rfl
  | some p =>
    by_cases h : 0 < (meterReadings.map (fun m =>
        (m.activePowerL1W + m.activePowerL2W + m.activePowerL3W) / 1000)).sum
        + consumerLoadPowersKw.sum - pvPowersKw.sum
    · simp only [if_pos h]
      rw [max_eq_right h.le]
    · simp only [if_neg h]
      rw [max_eq_left (not_lt.mp h)]
      ring

/-! ## Claim C6 -/

/-- Claim C6: for every PV configuration and weather input with
non-negative irradiance (weather GHI is constrained `≥ 0`) and non-negative
nominal capacity (constrained `≥ 0` by the config model), the power output
equals `min(capacity, capacity × GHI/1000 × temp_derate × loss_factor)`, is
exactly `0` when the irradiance is `≤ 0`, and never exceeds the nominal
capacity. -/
theorem c6_pv_power_output (cfg : PVConfig) (ghiWM2 moduleTempC : ℚ)
    (hghi : 0 ≤ ghiWM2) (hcap : 0 ≤ cfg.nominalCapacityKwp) :
    calculatePowerOutput cfg ghiWM2 moduleTempC
      = min cfg.nominalCapacityKwp
          (cfg.nominalCapacityKwp * (ghiWM2 / 1000)
            * calculateTemperatureDerating cfg moduleTempC
            * (1 - cfg.systemLossesPercent / 100))
    ∧ (ghiWM2 ≤ 0 → calculatePowerOutput cfg ghiWM2 moduleTempC = 0)
    ∧ calculatePowerOutput cfg ghiWM2 moduleTempC ≤ cfg.nominalCapacityKwp := by
  unfold calculatePowerOutput
  simp only [pymin_eq_min]
  by_cases h : ghiWM2 ≤ 0
  · have hz : ghiWM2 = 0 := le_antisymm h hghi
    subst hz
    have hr : PVConfig.nominalCapacityKwp cfg * (0 / 1000)
        * calculateTemperatureDerating cfg moduleTempC
        * (1 - cfg.systemLossesPercent / 100) = 0 := by ring
    simp only [if_pos le_rfl, hr, min_eq_right hcap]
    exact ⟨by trivial, fun _ => by trivial, hcap⟩
  · simp only [if_neg h]
    exact ⟨min_comm _ _, fun hc => absurd hc h, min_le_right _ _⟩

/-- Witness for C6 at the default configuration, 800 W/m² and a 50 °C
module temperature. -/
theorem c6_pv_power_output_witness :
    (0 : ℚ) ≤ 800 ∧ (0 : ℚ) ≤ PVConfig.default.nominalCapacityKwp
    ∧ calculatePowerOutput PVConfig.default 800 50 = 153/25
    ∧ calculatePowerOutput PVConfig.default 800 50 ≤ PVConfig.default.nominalCapacityKwp := by
  refine ⟨by norm_num, by norm_num [PVConfig.default], ?_, ?_⟩
  · norm_num [calculatePowerOutput, calculateTemperatureDerating, PVConfig.default,
      pymin, pymax]
  · exact (c6_pv_power_output PVConfig.default 800 50 (by norm_num)
      (by norm_num [PVConfig.default])).2.2

/-! ## Claim C8 -/

/-- Claim C8: `advance_to(t)` raises a validation error if and only if `t`
is strictly earlier than the current simulation time, and when it fails the
clock object is completely unchanged (simulation times, anchors,
accumulated pause duration and state machine included): the validation
check precedes every mutation. -/
theorem c8_advance_to_error (c : Clock) (target mono : ℚ) :
    (exceptIsError (advanceTo c target mono).2 = true
      ↔ target < c.currentSimulationTime)
    ∧ (target < c.currentSimulationTime → (advanceTo c target mono).1 = c) := by
  unfold advanceTo
  by_cases h : target < c.currentSimulationTime
  · simp [h, exceptIsError]
  · simp only [if_neg h]
    constructor
    · constructor
      · intro hc
        simp [exceptIsError] at hc
      · intro hc
        exact absurd hc h
    · intro hc
      exact absurd hc h

/-- Witness for C8: the concrete clock at simulation time 10 rejects a jump
to 5 and is left unchanged. -/
theorem c8_advance_to_error_witness :
    exceptIsError (advanceTo clockExample 5 0).2 = true
    ∧ (advanceTo clockExample 5 0).1 = clockExample := by
  have h5 : (5 : ℚ) < clockExample.currentSimulationTime := by
    norm_num [clockExample]
  exact ⟨(c8_advance_to_error clockExample 5 0).1.mpr h5,
    (c8_advance_to_error clockExample 5 0).2 h5⟩

/-! ## Claim C9 -/

/-- Claim C9: a Modbus register read whose address range passes `validate`
returns exactly `count` register values; every requested address that is not
backed by a published register value yields `0`; and this holds for every
meter reading, including when the provider returns no reading (the embedded
`getValues` is a total function — no step of the source method can raise). -/
theorem c9_modbus_get_values (float32ToRegisters : ℚ → ℕ × ℕ)
    (reading : Option MeterReadingsQ) (cache : List (ℤ × ℕ)) (address : ℤ)
    (count : ℕ) (hv : validate address count = true) :
    (getValues float32ToRegisters reading cache address count).length = count
    ∧ ∀ i : ℕ, i < count →
        (address + i) ∉ (refreshRegisters float32ToRegisters reading cache).map Prod.fst →
        (getValues float32ToRegisters reading cache address count).getD i 0 = 0 := by
  constructor
  · simp only [getValues, List.length_map, List.length_range]
  · intro i hi hmem
    unfold getValues cacheLookup
    rw [getD_map_range _ _ _ _ hi]
    rw [lookup_eq_none_of_not_mem_keys _ _ hmem]
    rfl

/-- Witness for C9: a validated 3-register read at 19000 on a freshly
refreshed block; the published set starts at 19001 (the source's
deliberate `address + 1` offset), so address 19000 itself reads 0. -/
theorem c9_modbus_get_values_witness :
    validate 19000 3 = true
    ∧ (getValues (fun _ => (1, 2)) (some meterReadingExample) [] 19000 3).length = 3
    ∧ (getValues (fun _ => (1, 2)) (some meterReadingExample) [] 19000 3).getD 0 0 = 0 := by
  have hv : validate 19000 3 = true := by decide
  refine ⟨hv, (c9_modbus_get_values _ _ _ _ _ hv).1, ?_⟩
  refine (c9_modbus_get_values _ _ _ _ _ hv).2 0 (by norm_num) ?_
  decide

/-! ## Claim C10 -/

/-- Claim C10: for an entity id absent from the engine registry,
`generate_current` and `generate_at` return `None` instead of raising, and
the whole engine state — registry, seed, clock and engine state machine —
is returned unchanged. -/
theorem c10_unknown_entity (e : Engine) (entityId : String) (mono ts : ℚ)
    (h : e.generators.lookup entityId = none) :
    engineGenerateCurrent e entityId mono = (none, e)
    ∧ engineGenerateAt e entityId ts = (none, e) := by
  unfold engineGenerateCurrent engineGenerateAt
  rw [h]
  exact ⟨rfl, rfl⟩

/-- Witness for C10: querying the unknown id `"nope"` on the concrete
engine (whose registry holds only `"pv-1"`). -/
theorem c10_unknown_entity_witness :
    engineExample.generators.lookup "nope" = none
    ∧ engineGenerateCurrent engineExample "nope" 0 = (none, engineExample)
    ∧ engineGenerateAt engineExample "nope" 7 = (none, engineExample) := by
  have h : engineExample.generators.lookup "nope" = none := rfl
  exact ⟨h, (c10_unknown_entity engineExample "nope" 0 7 h).1,
    (c10_unknown_entity engineExample "nope" 0 7 h).2⟩

/-! ## Claim C2 -/

/-- Claim C2, amended: the point-query cumulative energy is monotone
non-decreasing for timestamps within the same calendar year (the claim's
extension across calendar years fails, because the closed form anchors at
the start of the year containing the queried timestamp; see the
counterexample). -/
theorem c2_meter_energy_monotone_same_year (cfg : MeterConfig) (t1 t2 : ℚ)
    (hbase : 0 ≤ cfg.basePowerKw) (hpeak : cfg.basePowerKw ≤ cfg.peakPowerKw)
    (hyear : yearOf t1 = yearOf t2) (hle : t1 ≤ t2) :
    calculateCumulativeEnergy cfg t1 ≤ calculateCumulativeEnergy cfg t2 := by
  unfold calculateCumulativeEnergy
  rw [hyear]
  set R : ℚ := ((daysFromCivil (yearOf t2) 1 1 * 86400 : ℤ) : ℚ) with hR
  have havg : 0 ≤ cfg.basePowerKw + (cfg.peakPowerKw - cfg.basePowerKw) * (53 / 100) := by
    nlinarith
  by_cases h1 : t1 ≤ R
  · by_cases h2 : t2 ≤ R
    · simp [h1, h2]
    · simp only [if_pos h1, if_neg h2]
      have h2R : R ≤ t2 := le_of_not_le h2
      nlinarith
  · have h2 : ¬ t2 ≤ R := fun hc => h1 (le_trans hle hc)
    simp only [if_neg h1, if_neg h2]
    nlinarith

/-- Counterexample for C2 as stated: with a constant 1 kW meter
(`base = peak = 1`, `initial_energy = 0`), the cumulative energy at
2024-12-31T23:00:00Z (epoch 1735686000) is 8783 kWh, while one hour later
at 2025-01-01T00:00:00Z (epoch 1735689600) the year anchor advances to
2025 and the energy drops back to the initial 0 kWh: monotonicity fails
across calendar years. -/
theorem c2_counterexample :
    (1735686000 : ℚ) ≤ 1735689600
    ∧ calculateCumulativeEnergy ⟨1, 1, 0⟩ 1735686000 = 8783
    ∧ calculateCumulativeEnergy ⟨1, 1, 0⟩ 1735689600 = 0
    ∧ calculateCumulativeEnergy ⟨1, 1, 0⟩ 1735689600
        < calculateCumulativeEnergy ⟨1, 1, 0⟩ 1735686000 := by
  have hy1 : yearOf (1735686000 : ℚ) = 2024 := by
    have h : epochDay (1735686000 : ℚ) = 20088 := by
      unfold epochDay
      rw [Int.floor_eq_iff]
      norm_num
    unfold yearOf
    rw [h]
    decide
  have hy2 : yearOf (1735689600 : ℚ) = 2025 := by
    have h : epochDay (1735689600 : ℚ) = 20089 := by
      unfold epochDay
      rw [Int.floor_eq_iff]
      norm_num
    unfold yearOf
    rw [h]
    decide
  have hd1 : daysFromCivil 2024 1 1 = 19723 := by decide
  have hd2 : daysFromCivil 2025 1 1 = 20089 := by decide
  have he1 : calculateCumulativeEnergy ⟨1, 1, 0⟩ 1735686000 = 8783 := by
    unfold calculateCumulativeEnergy
    rw [hy1, hd1]
    norm_num
  have he2 : calculateCumulativeEnergy ⟨1, 1, 0⟩ 1735689600 = 0 := by
    unfold calculateCumulativeEnergy
    rw [hy2, hd2]
    norm_num
  refine ⟨by norm_num, he1, he2, ?_⟩
  rw [he1, he2]
  norm_num

/-- Witness for the amended C2 on one concrete same-year pair: 2024-06-12
00:00 and 06:00 UTC. -/
theorem c2_meter_energy_monotone_same_year_witness :
    (0 : ℚ) ≤ 2 ∧ (2 : ℚ) ≤ 5 ∧ yearOf (1718150400 : ℚ) = yearOf (1718172000 : ℚ)
    ∧ (1718150400 : ℚ) ≤ 1718172000
    ∧ calculateCumulativeEnergy ⟨2, 5, 100⟩ 1718150400
        ≤ calculateCumulativeEnergy ⟨2, 5, 100⟩ 1718172000 := by
  have hy : yearOf (1718150400 : ℚ) = yearOf (1718172000 : ℚ) := by
    have h1 : epochDay (1718150400 : ℚ) = 19886 := by
      unfold epochDay
      rw [Int.floor_eq_iff]
      norm_num
    have h2 : epochDay (1718172000 : ℚ) = 19886 := by
      unfold epochDay
      rw [Int.floor_eq_iff]
      norm_num
    unfold yearOf
    rw [h1, h2]
  exact ⟨by norm_num, by norm_num, hy, by norm_num,
    c2_meter_energy_monotone_same_year ⟨2, 5, 100⟩ 1718150400 1718172000
      (by norm_num) (by norm_num) hy (by norm_num)⟩

/-! ## Claim C7 -/

/-- Claim C7, amended: for timestamps at or after the epoch, alignment
returns the greatest multiple of the configured interval at or before `t`;
alignment is idempotent for every timestamp; and `generate_at(t)` produces
the same point as `generate_at(align(t))` for every timestamp.  (For
pre-epoch timestamps with a fractional second, `int(...)` truncates toward
zero instead of flooring and the first property fails; see the
counterexample.) -/
theorem c7_alignment {α : Type} (iv : IntervalMinutes) (generateValue : ℤ → α) (t : ℚ) :
    (0 ≤ t →
      ((alignTimestamp iv t : ℤ) : ℚ) ≤ t
      ∧ iv.seconds ∣ alignTimestamp iv t
      ∧ ∀ m : ℤ, iv.seconds ∣ m → (m : ℚ) ≤ t → m ≤ alignTimestamp iv t)
    ∧ alignTimestamp iv ((alignTimestamp iv t : ℤ) : ℚ) = alignTimestamp iv t
    ∧ generateAt iv generateValue t
        = generateAt iv generateValue ((alignTimestamp iv t : ℤ) : ℚ) := by
  have hS : 0 < iv.seconds := intervalSeconds_pos iv
  have hidem : alignTimestamp iv ((alignTimestamp iv t : ℤ) : ℚ) = alignTimestamp iv t := by
    unfold alignTimestamp pyFloorDiv
    rw [pyTrunc_intCast, Int.mul_fdiv_cancel _ (ne_of_gt hS)]
  refine ⟨?_, hidem, ?_⟩
  · intro ht
    have htr : pyTrunc t = ⌊t⌋ := pyTrunc_of_nonneg t ht
    have hfd : Int.fdiv ⌊t⌋ iv.seconds = ⌊t⌋ / iv.seconds :=
      Int.fdiv_eq_ediv _ (le_of_lt hS)
    refine ⟨?_, ?_, ?_⟩
    · have hle : alignTimestamp iv t ≤ ⌊t⌋ := by
        unfold alignTimestamp pyFloorDiv
        rw [htr, hfd]
        exact Int.ediv_mul_le _ (ne_of_gt hS)
      calc ((alignTimestamp iv t : ℤ) : ℚ) ≤ (⌊t⌋ : ℚ) := Int.cast_le.mpr hle
        _ ≤ t := Int.floor_le t
    · exact dvd_mul_left _ _
    · intro m hdvd hmt
      obtain ⟨k, hk⟩ := hdvd
      have hmf : m ≤ ⌊t⌋ := Int.le_floor.mpr hmt
      have hk2 : k ≤ ⌊t⌋ / iv.seconds := by
        rw [Int.le_ediv_iff_mul_le hS]
        calc k * iv.seconds = m := by rw [hk]; ring
          _ ≤ ⌊t⌋ := hmf
      have : k * iv.seconds ≤ ⌊t⌋ / iv.seconds * iv.seconds :=
        mul_le_mul_of_nonneg_right hk2 (le_of_lt hS)
      unfold alignTimestamp pyFloorDiv
      rw [htr, hfd]
      calc m = k * iv.seconds := by rw [hk]; ring
        _ ≤ ⌊t⌋ / iv.seconds * iv.seconds := this
  · unfold generateAt
    rw [hidem]

/-- Counterexample for C7 as stated: at `t = -1/2` s (1969-12-31
23:59:59.5 UTC) the 15-minute alignment returns epoch second 0, which is
strictly after `t` — not the greatest interval multiple at or before `t`. -/
theorem c7_counterexample :
    alignTimestamp IntervalMinutes.fifteenMinutes (-(1/2)) = 0
    ∧ ¬ (((alignTimestamp IntervalMinutes.fifteenMinutes (-(1/2)) : ℤ) : ℚ) ≤ -(1/2)) := by
  have hc : pyTrunc (-(1/2) : ℚ) = 0 := by
    unfold pyTrunc
    rw [if_pos (by norm_num)]
    rw [Int.ceil_eq_iff]
    norm_num
  have ha : alignTimestamp IntervalMinutes.fifteenMinutes (-(1/2)) = 0 := by
    unfold alignTimestamp pyFloorDiv
    rw [hc]
    decide
  refine ⟨ha, ?_⟩
  rw [ha]
  norm_num

/-- Witness for the amended C7 at `t = 1000` s with the identity
`generate_value`. -/
theorem c7_alignment_witness :
    (0 : ℚ) ≤ 1000
    ∧ ((alignTimestamp IntervalMinutes.fifteenMinutes (1000 : ℚ) : ℤ) : ℚ) ≤ 1000
    ∧ alignTimestamp IntervalMinutes.fifteenMinutes
        ((alignTimestamp IntervalMinutes.fifteenMinutes (1000 : ℚ) : ℤ) : ℚ)
        = alignTimestamp IntervalMinutes.fifteenMinutes (1000 : ℚ) := by
  have h0 : (0 : ℚ) ≤ 1000 := by norm_num
  exact ⟨h0,
    ((c7_alignment IntervalMinutes.fifteenMinutes (fun n => n) 1000).1 h0).1,
    (c7_alignment IntervalMinutes.fifteenMinutes (fun n => n) 1000).2.1⟩

/-! ## Claim C3 -/

/-- Claim C3 evaluated at a failing input: `reset(new_seed = 999)` on the
concrete engine flips the state to INITIALIZED, stores the new seed,
reseeds the RNG, and preserves the entity id and configuration — but it
does not rebuild the registered PV generator: the source only reassigns
`generator._rng`, so the daily-energy accumulator keeps its old value
`(some 2024-01-01, 2.5 kWh)` instead of the freshly-constructed state
`(None, 0.0)`.  After reset the generator does not behave as a freshly
constructed generator, contradicting the claim (and the source's own
comment `Recreate generators with new RNG`). -/
theorem c3_reset_keeps_accumulator :
    (engineReset engineExample none (some 999)).engineState = EngineState.INITIALIZED
    ∧ (engineReset engineExample none (some 999)).seed = 999
    ∧ (engineReset engineExample none (some 999)).rngSeed = 999
    ∧ (engineReset engineExample none (some 999)).generators.map Prod.fst = ["pv-1"]
    ∧ ((engineReset engineExample none (some 999)).generators.lookup "pv-1").map
        (fun g => (g.rngSeed, g.config, g.energyState))
      = some (999, PVConfig.default,
          ({ lastEnergyDate := some 19723, dailyEnergyKwh := 5/2 } : PVEnergyState))
    ∧ (freshPVGen 999 PVConfig.default IntervalMinutes.fifteenMinutes
        (fun _ => 0) (fun _ => 0)).energyState = PVEnergyState.initial
    ∧ ({ lastEnergyDate := some 19723, dailyEnergyKwh := 5/2 } : PVEnergyState)
        ≠ PVEnergyState.initial := by
  refine ⟨rfl, rfl, rfl, rfl, rfl, rfl, ?_⟩
  intro hcontra
  have := congrArg PVEnergyState.lastEnergyDate hcontra
  simp [PVEnergyState.initial] at this

/-! ## Claim C1 -/

/-- Claim C1, amended: for any permutation of a set of aligned timestamps,
the multiset of readings restricted to their stateless fields — timestamp,
`power_output_kw`, `irradiance_w_m2`, `module_temperature_c`,
`efficiency_percent` — is the same in any generation order and from any
accumulator state; the claim's inclusion of `daily_energy_kwh` fails
because that field is per-instance mutable state (see the
counterexample). -/
theorem c1_order_independence_stateless (weatherGhi weatherTemp : ℤ → ℚ)
    (cfg : PVConfig) (iv : IntervalMinutes) (st1 st2 : PVEnergyState)
    (l1 l2 : List ℤ) (hp : l1.Perm l2) :
    ((pvGenerateSeq weatherGhi weatherTemp cfg iv st1 l1).map
        PVReadingQ.statelessFields).Perm
      ((pvGenerateSeq weatherGhi weatherTemp cfg iv st2 l2).map
        PVReadingQ.statelessFields) := by
  rw [pvGenerateSeq_statelessFields, pvGenerateSeq_statelessFields]
  exact hp.map _

/-- Counterexample for C1 as stated: with the default PV configuration and
a weather profile that is dark at aligned second 0 and gives 800 W/m² at
aligned second 900 (both on the same UTC date), generating in ascending
order `[0, 900]` yields daily energies `[0, 1.53]`, while the permuted
order `[900, 0]` yields `[1.53, 1.53]` — the reading at timestamp 0 with
`daily_energy_kwh = 0` appears in one multiset and not in the other, so
the multiset of full readings (including `daily_energy_kwh`) is not
permutation-invariant. -/
theorem c1_counterexample :
    ¬ (∀ (weatherGhi weatherTemp : ℤ → ℚ) (cfg : PVConfig) (iv : IntervalMinutes)
        (l1 l2 : List ℤ), l1.Perm l2 →
        (pvGenerateSeq weatherGhi weatherTemp cfg iv PVEnergyState.initial l1).Perm
          (pvGenerateSeq weatherGhi weatherTemp cfg iv PVEnergyState.initial l2)) := by
  intro h
  have h2 := h ghiExample ambientExample PVConfig.default IntervalMinutes.fifteenMinutes
    [0, 900] [900, 0] (by decide)
  have e1 : pvGenerateSeq ghiExample ambientExample PVConfig.default
      IntervalMinutes.fifteenMinutes PVEnergyState.initial [0, 900]
      = [⟨0, 0, 0, 0, 25, 0⟩, ⟨900, 153/25, 153/100, 800, 50, 153/2⟩] := by
    norm_num [pvGenerateSeq, pvGenerateValue, updateDailyEnergy,
      calculateModuleTemperature, calculateTemperatureDerating, calculatePowerOutput,
      calculateEfficiency, pymin, pymax, ghiExample, ambientExample, PVConfig.default,
      PVEnergyState.initial, IntervalMinutes.minutes,
      show Int.fdiv 0 86400 = 0 from by decide,
      show Int.fdiv 900 86400 = 0 from by decide,
      show (none : Option ℤ) ≠ some 0 from by simp]
  have e2 : pvGenerateSeq ghiExample ambientExample PVConfig.default
      IntervalMinutes.fifteenMinutes PVEnergyState.initial [900, 0]
      = [⟨900, 153/25, 153/100, 800, 50, 153/2⟩, ⟨0, 0, 153/100, 0, 25, 0⟩] := by
    norm_num [pvGenerateSeq, pvGenerateValue, updateDailyEnergy,
      calculateModuleTemperature, calculateTemperatureDerating, calculatePowerOutput,
      calculateEfficiency, pymin, pymax, ghiExample, ambientExample, PVConfig.default,
      PVEnergyState.initial, IntervalMinutes.minutes,
      show Int.fdiv 0 86400 = 0 from by decide,
      show Int.fdiv 900 86400 = 0 from by decide,
      show (none : Option ℤ) ≠ some 0 from by simp]
  rw [e1, e2] at h2
  have hmem : (⟨0, 0, 0, 0, 25, 0⟩ : PVReadingQ)
      ∈ [(⟨0, 0, 0, 0, 25, 0⟩ : PVReadingQ), ⟨900, 153/25, 153/100, 800, 50, 153/2⟩] := by
    exact List.mem_cons_self _ _
  have h3 := h2.mem_iff.mp hmem
  simp only [List.mem_cons, List.not_mem_nil, or_false, PVReadingQ.mk.injEq] at h3
  rcases h3 with ⟨hts, _⟩ | ⟨_, _, hdaily, _⟩
  · norm_num at hts
  · norm_num at hdaily

/-- Witness for the amended C1 on the concrete two-timestamp permutation. -/
theorem c1_order_independence_stateless_witness :
    ([0, 900] : List ℤ).Perm [900, 0]
    ∧ ((pvGenerateSeq ghiExample ambientExample PVConfig.default
          IntervalMinutes.fifteenMinutes PVEnergyState.initial [0, 900]).map
        PVReadingQ.statelessFields).Perm
      ((pvGenerateSeq ghiExample ambientExample PVConfig.default
          IntervalMinutes.fifteenMinutes PVEnergyState.initial [900, 0]).map
        PVReadingQ.statelessFields) :=
  ⟨by decide, c1_order_independence_stateless ghiExample ambientExample PVConfig.default
    IntervalMinutes.fifteenMinutes PVEnergyState.initial PVEnergyState.initial
    [0, 900] [900, 0] (by decide)⟩

/-! ## Claim C4 -/

/-- Claim C4, amended: whenever the five per-draw variances are positive,
the weather generator consumes its per-timestamp stream in exactly the
order (1) cloud-cover noise, (2) temperature noise, (3) humidity noise,
(4) wind-speed gust, (5) wind-direction deviation — positions 0 through 4
of the stream — and the irradiance cloud micro-variability is drawn from
the separate sub-stream keyed by `entity_id` followed by the literal
`"_irr"` (the spec's claimed literal `":irr"` is refuted by the
counterexample). -/
theorem c4_weather_draw_order (O : SolarOracle) (cfg : WeatherConfigQ)
    (entityId : String) (streams : String → List ℚ) (t : ℤ)
    (h1 : 0 < cfg.cloudVariancePercent) (h2 : 0 < cfg.temperatureVarianceC)
    (h3 : 0 < cfg.humidityVariancePercent) (h4 : 0 < cfg.windVarianceMs)
    (h5 : 0 < cfg.windDirectionVarianceDeg) :
    weatherGenerateValue O cfg entityId streams t
      = weatherGenerateValueDraws O "_irr" cfg entityId streams t := by
  unfold weatherGenerateValue weatherGenerateValueDraws weatherIrrStreamKey
    calculateCloudCover calculateTemperature calculateHumidityFromTemperature
    calculateWindSpeed calculateWindDirection getSeasonalFactor getDiurnalFactor
  simp only [if_pos h1, if_pos h2, if_pos h3, if_pos h4, if_pos h5]
  rcases hs : streams entityId with _ | ⟨a, _ | ⟨b, _ | ⟨c, _ | ⟨d, _ | ⟨e, rest⟩⟩⟩⟩⟩ <;>
    simp [hs, List.getD]

/-- Counterexample for C4 as stated: the source keys the irradiance
sub-stream by `entity_id + "_irr"`, not `entity_id + ":irr"`; the derived
hash inputs differ, and with streams that distinguish the two keys the
generated reading differs from the specification's version. -/
theorem c4_counterexample :
    weatherIrrStreamKey "ws" = "ws_irr"
    ∧ weatherIrrStreamKey "ws" ≠ "ws" ++ ":irr"
    ∧ timestampSeedInput 12345 (weatherIrrStreamKey "ws") 0
        ≠ timestampSeedInput 12345 ("ws" ++ ":irr") 0
    ∧ weatherGenerateValue oracleExample weatherConfigZeroVar "ws" streamsExample 0
        ≠ weatherGenerateValueDraws oracleExample ":irr" weatherConfigZeroVar "ws"
            streamsExample 0 := by
  refine ⟨rfl, by decide, by decide, ?_⟩
  have hg1 : (weatherGenerateValue oracleExample weatherConfigZeroVar "ws"
      streamsExample 0).ghiWM2 = 450 := by
    norm_num [weatherGenerateValue, weatherIrrStreamKey, calculateCloudCover,
      calculateTemperature, calculateHumidityFromTemperature, calculateWindSpeed,
      calculateWindDirection, calculateFullIrradiance, calculateSolarPosition,
      calculateClearSkyGhi, applyCloudFactor, calculateIrradianceComponents,
      getSeasonalFactor, getDiurnalFactor, getDiurnalWindFactor, pymin, pymax,
      oracleExample, weatherConfigZeroVar,
      show streamsExample ("ws" ++ "_irr") = [1/10] from rfl]
  have hg2 : (weatherGenerateValueDraws oracleExample ":irr" weatherConfigZeroVar "ws"
      streamsExample 0).ghiWM2 = 400 := by
    norm_num [weatherGenerateValueDraws, calculateFullIrradiance,
      calculateSolarPosition, calculateClearSkyGhi, applyCloudFactor,
      calculateIrradianceComponents, getSeasonalFactor, getDiurnalFactor,
      getDiurnalWindFactor, pymin, pymax, oracleExample, weatherConfigZeroVar,
      show streamsExample "ws" = [] from rfl,
      show streamsExample ("ws" ++ ":irr") = [] from rfl]
  intro hcontra
  rw [hcontra, hg2] at hg1
  norm_num at hg1

/-- Witness for the amended C4: unit variances, the concrete oracle, empty
streams, timestamp 0. -/
theorem c4_weather_draw_order_witness :
    (0 : ℚ) < weatherConfigUnitVar.cloudVariancePercent
    ∧ (0 : ℚ) < weatherConfigUnitVar.temperatureVarianceC
    ∧ (0 : ℚ) < weatherConfigUnitVar.humidityVariancePercent
    ∧ (0 : ℚ) < weatherConfigUnitVar.windVarianceMs
    ∧ (0 : ℚ) < weatherConfigUnitVar.windDirectionVarianceDeg
    ∧ weatherGenerateValue oracleExample weatherConfigUnitVar "ws" (fun _ => []) 0
        = weatherGenerateValueDraws oracleExample "_irr" weatherConfigUnitVar "ws"
            (fun _ => []) 0 := by
  have hv : (0 : ℚ) < 1 := by norm_num
  refine ⟨?_, ?_, ?_, ?_, ?_, ?_⟩
  · norm_num [weatherConfigUnitVar, weatherConfigZeroVar]
  · norm_num [weatherConfigUnitVar, weatherConfigZeroVar]
  · norm_num [weatherConfigUnitVar, weatherConfigZeroVar]
  · norm_num [weatherConfigUnitVar, weatherConfigZeroVar]
  · norm_num [weatherConfigUnitVar, weatherConfigZeroVar]
  · exact c4_weather_draw_order oracleExample weatherConfigUnitVar "ws" (fun _ => []) 0
      (by norm_num [weatherConfigUnitVar, weatherConfigZeroVar])
      (by norm_num [weatherConfigUnitVar, weatherConfigZeroVar])
      (by norm_num [weatherConfigUnitVar, weatherConfigZeroVar])
      (by norm_num [weatherConfigUnitVar, weatherConfigZeroVar])
      (by norm_num [weatherConfigUnitVar, weatherConfigZeroVar])

end Facis
